import Mathlib

/-! Weather dashboard (`src/App.js`).

A shallow embedding of the helper functions and of the controller of the
single-page weather application, followed by the properties established about
them.

Conventions of the embedding.

* A JavaScript value that reaches a position where the program expects a number
  or a string is a `JSVal α`: the value itself, `undefined` or `null`.
* Numbers that the helpers compute with are integers (timestamps and offsets in
  seconds); `NaN` is `none` in `JSNumber`.  For integer-valued doubles the
  additions and multiplications of `formatCityTime` are exact whenever the
  shifted instant is in the range of `Date`, and yield a value outside that
  range otherwise, so integer arithmetic followed by `TimeClip` gives the same
  `Date`.
* Temperatures and wind speeds are rationals (every finite double is one);
  `Math.round` is `⌊x + 1/2⌋`, i.e. the nearest integer with ties upwards.
* Strings are sequences of code points; the string tests used by the program
  only look for ASCII text, so they read the same on UTF-16 code units.
-/

namespace WeatherApp

/-! ## JavaScript values -/

/-- A JavaScript value where the program expects an `α`: the two markers of
absence, or a value of that type. -/
inductive JSVal (α : Type) where
  | undefined : JSVal α
  | null : JSVal α
  | val (a : α) : JSVal α
  deriving DecidableEq, Repr

/-- An integer-valued JavaScript number, or `NaN` (`none`). -/
abbrev JSNumber := Option Int

/-- ToNumber on the values a timestamp or an offset can hold. -/
def toNumber : JSVal Int → JSNumber
  | .undefined => none
  | .null => some 0
  | .val n => some n

/-- ToBoolean on the values a timestamp can hold: `undefined`, `null` and `0`
are falsy. -/
def numTruthy : JSVal Int → Bool
  | .val n => n != 0
  | _ => false

/-- ToBoolean on the values a text field can hold: `undefined`, `null` and the
empty string are falsy. -/
def strTruthy : JSVal String → Bool
  | .val s => s != ""
  | _ => false

/-- The numeric `+` of two numbers. -/
def numAdd : JSNumber → JSNumber → JSNumber
  | some a, some b => some (a + b)
  | _, _ => none

/-- The numeric `*` of two numbers. -/
def numMul : JSNumber → JSNumber → JSNumber
  | some a, some b => some (a * b)
  | _, _ => none

/-- The comparison `a < b`; any comparison with `NaN` is false. -/
def numLt : JSNumber → JSNumber → Bool
  | some a, some b => decide (a < b)
  | _, _ => false

/-- Number::toString on integers and `NaN`. -/
def numberToString : JSNumber → String
  | none => "NaN"
  | some n => toString n

/-- ToString of a value interpolated into a template literal. -/
def stringOf : JSVal String → String
  | .undefined => "undefined"
  | .null => "null"
  | .val s => s

/-- Array element access `xs[i]`: `undefined` unless `i` is an index of `xs`. -/
def arrayGet (xs : List String) : JSNumber → JSVal String
  | some (Int.ofNat k) =>
    match xs.get? k with
    | some s => .val s
    | none => .undefined
  | _ => .undefined

/-! ## `Date` (ECMAScript time values, in milliseconds since the epoch) -/

def msPerMinute : Int := 60000
def msPerHour : Int := 3600000
def msPerDay : Int := 86400000

/-- TimeClip: a time value further than 8.64e15 ms from the epoch is `NaN`. -/
def TimeClip : JSNumber → JSNumber
  | some t => if t.natAbs ≤ 8640000000000000 then some t else none
  | none => none

/-- Day(t) = floor(t / msPerDay). -/
def Day (t : Int) : Int := Int.fdiv t msPerDay

/-- WeekDay(t) = (Day(t) + 4) modulo 7, with 0 for Sunday. -/
def WeekDay (t : Int) : Int := Int.fmod (Day t + 4) 7

/-- HourFromTime(t) = floor(t / msPerHour) modulo 24. -/
def HourFromTime (t : Int) : Int := Int.fmod (Int.fdiv t msPerHour) 24

/-- MinFromTime(t) = floor(t / msPerMinute) modulo 60. -/
def MinFromTime (t : Int) : Int := Int.fmod (Int.fdiv t msPerMinute) 60

/-- A `Date` object: its time value, `NaN` for an Invalid Date. -/
structure Date where
  time : JSNumber
  deriving DecidableEq, Repr

/-- The constructor `new Date(value)` on a number. -/
def newDate (value : JSNumber) : Date := ⟨TimeClip value⟩

def Date.getUTCHours (d : Date) : JSNumber := d.time.map HourFromTime
def Date.getUTCMinutes (d : Date) : JSNumber := d.time.map MinFromTime
def Date.getUTCDay (d : Date) : JSNumber := d.time.map WeekDay

/-! ## Formatting helpers -/

def days : List String :=
  ["Sunday", "Monday", "Tuesday", "Wednesday", "Thursday", "Friday", "Saturday"]

def daysShort : List String := ["Sun", "Mon", "Tue", "Wed", "Thu", "Fri", "Sat"]

/-- The function `formatCityTime(dt, timezoneOffset)`. -/
def formatCityTime (dt timezoneOffset : JSVal Int) : String :=
  if !numTruthy dt || timezoneOffset = .undefined || timezoneOffset = .null then
    ""
  else
    let loc := newDate (numMul (numAdd (toNumber dt) (toNumber timezoneOffset)) (some 1000))
    let hours := loc.getUTCHours
    let minutes := loc.getUTCMinutes
    let dayIndex := loc.getUTCDay
    let day := arrayGet days dayIndex
    let paddedMinutes :=
      if numLt minutes (some 10) then "0" ++ numberToString minutes else numberToString minutes
    let paddedHours :=
      if numLt hours (some 10) then "0" ++ numberToString hours else numberToString hours
    stringOf day ++ " " ++ paddedHours ++ ":" ++ paddedMinutes

/-- The function `formatForecastDay(dt, timezoneOffset)`. -/
def formatForecastDay (dt timezoneOffset : JSVal Int) : JSVal String :=
  let loc := newDate (numMul (numAdd (toNumber dt) (toNumber timezoneOffset)) (some 1000))
  let dayIndex := loc.getUTCDay
  arrayGet daysShort dayIndex

/-! ## Strings

`startsWith`, `endsWith` and `includes` are the methods of `String.prototype`
with their default positions.  `toLowerCase` is modelled on the letters `A`-`Z`.
The only other code points whose lower case contains an ASCII letter are U+0130
(to `i` followed by U+0307) and U+212A (to `k`); no keyword the program looks
for contains `k` or ends in `i`, so the tests below read the same on the full
Unicode mapping. -/

def startsWith (s searchString : String) : Bool := searchString.data.isPrefixOf s.data

def endsWith (s searchString : String) : Bool := searchString.data.isSuffixOf s.data

def includes (s searchString : String) : Bool :=
  s.data.tails.any fun t => searchString.data.isPrefixOf t

def toLowerCase (s : String) : String := String.mk (s.data.map Char.toLower)

/-- The expression `v || ""` on a text field (`"" || ""` is `""`). -/
def orEmpty : JSVal String → String
  | .val s => s
  | _ => ""

/-- The function `getWeatherEmoji(iconCode, main, description)`; the second
parameter, `main`, is never read.  The value of `isDay` is only ever tested for
truthiness, so it is kept as that Boolean. -/
def getWeatherEmoji (iconCode _main description : JSVal String) : String :=
  let lower := toLowerCase (orEmpty description)
  let isDay := strTruthy iconCode && endsWith (orEmpty iconCode) "d"
  let code := orEmpty iconCode
  if startsWith code "01" then
    if isDay then "☀️" else "🌙"
  else if startsWith code "02" || startsWith code "03" then
    if isDay then "🌤️" else "☁️"
  else if startsWith code "04" then
    "☁️"
  else if startsWith code "09" || startsWith code "10" || includes lower "rain" then
    if isDay then "🌦️" else "🌧️"
  else if startsWith code "11" || includes lower "thunder" then
    "⛈️"
  else if startsWith code "13" || includes lower "snow" then
    "❄️"
  else if startsWith code "50" || includes lower "mist" || includes lower "fog"
      || includes lower "haze" then
    "🌫️"
  else if isDay then "🌈"
  else "⭐"

/-! ## Provider payloads

A payload is a JSON object in which any field may be missing (`undefined`) or
`null`; a field that is present has the provider's type.  Reading a property of
`undefined` or `null` throws a TypeError: `none` in the functions below. -/

/-- An element of the `weather` array. -/
structure WeatherItem where
  description : JSVal String
  icon : JSVal String
  main : JSVal String
  deriving DecidableEq

/-- The `main` object of a current-conditions payload. -/
structure MainData where
  temp : JSVal ℚ
  humidity : JSVal Int
  deriving DecidableEq

/-- The `wind` object of a current-conditions payload. -/
structure WindData where
  speed : JSVal ℚ
  deriving DecidableEq

/-- The body (`response.data`) of a current-conditions response. -/
structure CurrentData where
  name : JSVal String
  main : JSVal MainData
  weather : JSVal (List WeatherItem)
  wind : JSVal WindData
  dt : JSVal Int
  timezone : JSVal Int
  deriving DecidableEq

/-- The `main` object of a forecast period. -/
structure PeriodMain where
  temp_min : JSVal ℚ
  temp_max : JSVal ℚ
  deriving DecidableEq

/-- One element of the `list` array of a forecast response. -/
structure Period where
  dt : JSVal Int
  main : JSVal PeriodMain
  weather : JSVal (List WeatherItem)
  deriving DecidableEq

/-- The top-level `city` object of a forecast response. -/
structure CityData where
  timezone : JSVal Int
  deriving DecidableEq

/-- The body (`response.data`) of a forecast response. -/
structure ForecastData where
  list : JSVal (List Period)
  city : JSVal CityData
  deriving DecidableEq

/-- The object whose property is being read: reading a property of `undefined`
or `null` throws. -/
def JSVal.obj {α : Type} : JSVal α → Option α
  | .val a => some a
  | _ => none

/-- The element access `xs[0]` on an array: `undefined` when it is empty. -/
def first {α : Type} : List α → JSVal α
  | [] => .undefined
  | a :: _ => .val a

/-- The function `Math.round` on a temperature or a speed: `NaN` for
`undefined`, `0` for `null`, and otherwise the nearest integer, ties upwards. -/
def mathRound : JSVal ℚ → JSNumber
  | .undefined => none
  | .null => some 0
  | .val x => some ⌊x + 1 / 2⌋

/-! ## Application state -/

/-- The record stored by `setWeather`. -/
structure CurrentWeather where
  city : JSVal String
  temperature : JSNumber
  description : JSVal String
  humidity : JSVal Int
  windSpeed : JSNumber
  dt : JSVal Int
  timezone : JSVal Int
  iconCode : JSVal String
  main : JSVal String
  deriving DecidableEq

/-- One element of the array stored by `setForecast`. -/
structure ForecastEntry where
  dt : JSVal Int
  tempMin : JSNumber
  tempMax : JSNumber
  iconCode : JSVal String
  main : JSVal String
  description : JSVal String
  timezone : JSVal Int
  deriving DecidableEq

/-- The state held by the hooks of `App`; `weather` starts as `null` (`none`). -/
structure AppState where
  city : String
  weather : Option CurrentWeather
  forecast : List ForecastEntry
  isLoading : Bool
  pulse : Bool
  deriving DecidableEq

/-- The state of the first render. -/
def initialState : AppState :=
  { city := "Philadelphia", weather := none, forecast := [], isLoading := false, pulse := true }

/-- A request to the provider, by the city name it was built from. -/
inductive Request where
  | current (cityName : String)
  | forecast (cityName : String)
  deriving DecidableEq

def apiKey : String := "ab8e7ef210556986d1c9a75d6007b825"

/-- The address a request is sent to. -/
def Request.url : Request → String
  | .current cityName =>
    "https://api.openweathermap.org/data/2.5/weather?q=" ++ cityName ++ "&appid=" ++ apiKey
      ++ "&units=metric"
  | .forecast cityName =>
    "https://api.openweathermap.org/data/2.5/forecast?q=" ++ cityName ++ "&appid=" ++ apiKey
      ++ "&units=metric"

/-- What a handler does besides updating the state. -/
inductive Effect where
  | get (request : Request)
  | consoleError
  | alert (message : String)
  deriving DecidableEq

/-- How a request settles: without a response, or with a status and a body.
The HTTP client rejects the promise in the first case and for a status outside
200-299, and fulfils it otherwise. -/
inductive Outcome (α : Type) where
  | networkError : Outcome α
  | response (status : Nat) (data : JSVal α) : Outcome α

/-- The body handed to the `then` callback, when the promise is fulfilled. -/
def Outcome.fulfilled {α : Type} : Outcome α → Option (JSVal α)
  | .response status data => if 200 ≤ status ∧ status < 300 then some data else none
  | .networkError => none

/-! ## The data client -/

/-- The object literal passed to `setWeather`; `none` when evaluating it throws. -/
def currentWeatherOf (data : JSVal CurrentData) : Option CurrentWeather := do
  let d ← data.obj
  let main ← d.main.obj
  let weather ← d.weather.obj
  let weather0 ← (first weather).obj
  let wind ← d.wind.obj
  pure
    { city := d.name
      temperature := mathRound main.temp
      description := weather0.description
      humidity := main.humidity
      windSpeed := mathRound wind.speed
      dt := d.dt
      timezone := d.timezone
      iconCode := weather0.icon
      main := weather0.main }

/-- The callback of `items.map` in `getForecast`, with the response body it
closes over; `none` when it throws. -/
def forecastEntryOf (data : ForecastData) (item : Period) : Option ForecastEntry := do
  let main ← item.main.obj
  let weather ← item.weather.obj
  let weather0 ← (first weather).obj
  let city ← data.city.obj
  pure
    { dt := item.dt
      tempMin := mathRound main.temp_min
      tempMax := mathRound main.temp_max
      iconCode := weather0.icon
      main := weather0.main
      description := weather0.description
      timezone := city.timezone }

/-- The method `Array.prototype.map` with a callback that may throw. -/
def arrayMap {α β : Type} (f : α → Option β) : List α → Option (List β)
  | [] => some []
  | a :: rest =>
    match f a with
    | none => none
    | some b =>
      match arrayMap f rest with
      | none => none
      | some bs => some (b :: bs)

/-- The array passed to `setForecast`; `none` when building it throws. -/
def forecastOf (data : JSVal ForecastData) : Option (List ForecastEntry) := do
  let d ← data.obj
  let list ← d.list.obj
  let items := list.take 5
  arrayMap (forecastEntryOf d) items

/-- The function `getForecast(cityName)`, up to the request it sends. -/
def getForecast (st : AppState) (cityName : String) : AppState × List Effect :=
  (st, [.get (.forecast cityName)])

/-- The callbacks `getForecast` attaches to its request: `then`, `catch` and
`finally`. -/
def forecastSettled (st : AppState) (r : Outcome ForecastData) : AppState × List Effect :=
  match r.fulfilled.bind forecastOf with
  | some entries => ({ st with forecast := entries, isLoading := false }, [])
  | none => ({ st with isLoading := false }, [.consoleError])

/-- The function `searchCity(cityName)`, up to the request it sends. -/
def searchCity (st : AppState) (cityName : String) : AppState × List Effect :=
  if cityName = "" then (st, [])
  else ({ st with isLoading := true }, [.get (.current cityName)])

/-- The callbacks `searchCity` attaches to its request: `then` and `catch`. -/
def currentSettled (st : AppState) (cityName : String) (r : Outcome CurrentData) :
    AppState × List Effect :=
  match r.fulfilled.bind currentWeatherOf with
  | some w => getForecast { st with weather := some w } cityName
  | none =>
    ({ st with isLoading := false },
      [.consoleError, .alert "Could not find that city. Please try again 🥺"])

/-! ## The controller and the runs of the application -/

/-- Code points that `String.prototype.trim` removes: WhiteSpace and
LineTerminator. -/
def isTrimChar (c : Char) : Bool :=
  c.toNat ∈ [0x9, 0xA, 0xB, 0xC, 0xD, 0x20, 0xA0, 0x1680, 0x2028, 0x2029, 0x202F, 0x205F,
    0x3000, 0xFEFF] || (0x2000 ≤ c.toNat && c.toNat ≤ 0x200A)

def trim (s : String) : String :=
  String.mk ((s.data.dropWhile isTrimChar).reverse.dropWhile isTrimChar).reverse

/-- The function `handleSubmit(event)`. -/
def handleSubmit (st : AppState) : AppState × List Effect :=
  if trim st.city = "" then (st, [])
  else searchCity st (trim st.city)

/-- The application together with its environment: the requests in flight and
everything the handlers have done so far. -/
structure World where
  app : AppState
  mounted : Bool
  pending : List Request
  log : List Effect

/-- The requests among some effects. -/
def requestsOf : List Effect → List Request
  | [] => []
  | .get r :: rest => r :: requestsOf rest
  | _ :: rest => requestsOf rest

/-- Record the result of a handler in the world. -/
def World.after (w : World) (r : AppState × List Effect) : World :=
  { w with app := r.1, pending := w.pending ++ requestsOf r.2, log := w.log ++ r.2 }

/-- What can happen to the application. -/
inductive Event where
  | mount
  | change (text : String)
  | submit
  | tick
  | currentDone (cityName : String) (r : Outcome CurrentData)
  | forecastDone (cityName : String) (r : Outcome ForecastData)

/-- One step of a run; `none` when the event cannot happen in this world: the
effect of the first render runs once, and only a request in flight settles. -/
def step (w : World) : Event → Option World
  | .mount =>
    if w.mounted then none
    else some ({ w with mounted := true }.after (searchCity w.app "Philadelphia"))
  | .change text =>
    if w.mounted then some { w with app := { w.app with city := text } } else none
  | .submit =>
    if w.mounted then some (w.after (handleSubmit w.app)) else none
  | .tick =>
    if w.mounted then some { w with app := { w.app with pulse := !w.app.pulse } } else none
  | .currentDone cityName r =>
    if .current cityName ∈ w.pending then
      some ({ w with pending := w.pending.erase (.current cityName) }.after
        (currentSettled w.app cityName r))
    else none
  | .forecastDone cityName r =>
    if .forecast cityName ∈ w.pending then
      some ({ w with pending := w.pending.erase (.forecast cityName) }.after
        (forecastSettled w.app r))
    else none

/-- The world before the first render's effects. -/
def World.start : World :=
  { app := initialState, mounted := false, pending := [], log := [] }

/-- The world after a sequence of events, when each can happen in its turn. -/
def run (w : World) : List Event → Option World
  | [] => some w
  | e :: rest =>
    match step w e with
    | some w' => run w' rest
    | none => none

/-- The event is the settling of a forecast request. -/
def Event.isForecastDone : Event → Bool
  | .forecastDone _ _ => true
  | _ => false

/-- A value is absent: `undefined` or `null`. -/
def JSVal.absent {α : Type} : JSVal α → Bool
  | .val _ => false
  | _ => true

/-- The payload lacks an object whose property the mapping of `searchCity`
reads: the body itself, `main`, `wind` or `weather[0]`. -/
def lacksObject : JSVal CurrentData → Bool
  | .val d =>
    d.main.absent || d.wind.absent ||
      (match d.weather with
        | .val (_ :: _) => false
        | _ => true)
  | _ => true

/-- The period has the objects the mapping of `getForecast` reads from:
`main` and `weather[0]`. -/
def Period.wellFormed (p : Period) : Bool :=
  !p.main.absent &&
    (match p.weather with
      | .val (_ :: _) => true
      | _ => false)

/-- The current-conditions request fails: the promise is rejected, or the
`then` callback throws before it stores anything. -/
def currentFails (r : Outcome CurrentData) : Bool :=
  (r.fulfilled.bind currentWeatherOf).isNone

/-- The handlers one search runs when nothing else happens in between:
`searchCity`, the settling of its request and, when a forecast request was
sent, the settling of that one. -/
def searchChain (st : AppState) (cityName : String) (rc : Outcome CurrentData)
    (rf : Outcome ForecastData) : AppState × List Effect :=
  let a := searchCity st cityName
  if a.2 = [] then a
  else
    let b := currentSettled a.1 cityName rc
    if .get (.forecast cityName) ∈ b.2 then
      let c := forecastSettled b.1 rf
      (c.1, a.2 ++ b.2 ++ c.2)
    else (b.1, a.2 ++ b.2)

/-! ## Sample payloads -/

/-- A current-conditions payload for "Testville". -/
def testville : CurrentData :=
  { name := .val "Testville"
    main := .val { temp := .val 21.4, humidity := .val 55 }
    weather := .val [{ description := .val "light rain", icon := .val "10d", main := .val "Rain" }]
    wind := .val { speed := .val 3.7 }
    dt := .val 1700000000
    timezone := .val 3600 }

/-- The same payload without its `name`. -/
def testvilleUnnamed : CurrentData := { testville with name := .undefined }

/-- A forecast period at the given time. -/
def periodAt (dt : Int) : Period :=
  { dt := .val dt
    main := .val { temp_min := .val 18.2, temp_max := .val 22.6 }
    weather := .val [{ description := .val "few clouds", icon := .val "02d", main := .val "Clouds" }] }

/-- A forecast payload with 8 periods, three hours apart. -/
def eightPeriods : ForecastData :=
  { list := .val [periodAt 10800, periodAt 21600, periodAt 32400, periodAt 43200, periodAt 54000,
      periodAt 64800, periodAt 75600, periodAt 86400]
    city := .val { timezone := .val 7200 } }

/-- The world after the first render's effect. -/
def worldLoading : World :=
  { app := { initialState with isLoading := true }
    mounted := true
    pending := [.current "Philadelphia"]
    log := [.get (.current "Philadelphia")] }

/-- The world after the request of the first render failed. -/
def worldFailed : World :=
  { app := initialState
    mounted := true
    pending := []
    log := [.get (.current "Philadelphia"), .consoleError,
      .alert "Could not find that city. Please try again 🥺"] }

/-! ## Rounding as the specification words it -/

/-- The integer `n` is a nearest integer to `x`. -/
def IsNearestInt (x : ℚ) (n : Int) : Prop := ∀ k : Int, |(n : ℚ) - x| ≤ |(k : ℚ) - x|

/-! ## The formatter as the specification words it -/

/-- A number below 100 written as exactly two decimal digits. -/
def twoDigits (n : Int) : String :=
  String.mk [Nat.digitChar (n / 10).toNat, Nat.digitChar (n % 10).toNat]

/-- The string "{DayName} {HH}:{MM}" of an instant `s`, in seconds since the
epoch read as UTC: the day is entry `(floor(s / 86400) + 4) mod 7` of the day
names, `HH = floor((s mod 86400) / 3600)` and `MM = floor((s mod 3600) / 60)`. -/
def specCityTime (s : Int) : String :=
  days.getD (Int.fmod (Int.fdiv s 86400 + 4) 7).toNat "" ++ " "
    ++ twoDigits (Int.fdiv (Int.fmod s 86400) 3600) ++ ":"
    ++ twoDigits (Int.fdiv (Int.fmod s 3600) 60)

/-- The first `n` characters of a string. -/
def firstChars (n : Nat) (s : String) : String := String.mk (s.data.take n)

/-! ## The emoji mapper as the specification words it -/

/-- One line of the ordered rule list: the code prefixes and the description
keywords that select it, and its glyph by day and by night. -/
structure EmojiRule where
  codePrefixes : List String
  keywords : List String
  dayGlyph : String
  nightGlyph : String

/-- Rules 1 to 7, in their order. -/
def emojiRules : List EmojiRule :=
  [ ⟨["01"], [], "☀️", "🌙"⟩,
    ⟨["02", "03"], [], "🌤️", "☁️"⟩,
    ⟨["04"], [], "☁️", "☁️"⟩,
    ⟨["09", "10"], ["rain"], "🌦️", "🌧️"⟩,
    ⟨["11"], ["thunder"], "⛈️", "⛈️"⟩,
    ⟨["13"], ["snow"], "❄️", "❄️"⟩,
    ⟨["50"], ["mist", "fog", "haze"], "🌫️", "🌫️"⟩ ]

/-- A rule matches when the code starts with one of its prefixes or the
lower-cased description contains one of its keywords. -/
def EmojiRule.applies (r : EmojiRule) (code lower : String) : Bool :=
  r.codePrefixes.any (fun p => startsWith code p) || r.keywords.any (fun k => includes lower k)

/-- The flag isDay: the icon code is present and ends with "d". -/
def specIsDay : JSVal String → Bool
  | .val code => endsWith code "d"
  | _ => false

/-- The result of the first matching rule of the list, rule 8 when none does;
an absent icon code matches no prefix. -/
def specWeatherEmoji (iconCode description : JSVal String) : String :=
  match emojiRules.find? fun r => r.applies (orEmpty iconCode) (toLowerCase (orEmpty description)) with
  | some r => if specIsDay iconCode then r.dayGlyph else r.nightGlyph
  | none => if specIsDay iconCode then "🌈" else "⭐"

/-! ## Properties -/

/-- The padding expression of `formatCityTime` writes two decimal digits. -/
lemma pad_eq_twoDigits (n : Int) (h0 : 0 ≤ n) (h1 : n < 60) :
    (if numLt (some n) (some 10) then "0" ++ numberToString (some n)
      else numberToString (some n)) = twoDigits n := by
  interval_cases n <;> rfl

/-- Indexing the day names with a week day gives that day's name. -/
lemma dayName_eq (k : Int) (h0 : 0 ≤ k) (h1 : k < 7) :
    stringOf (arrayGet days (some k)) = days.getD k.toNat "" := by
  interval_cases k <;> rfl

lemma hour_of_seconds (s : Int) :
    HourFromTime (s * 1000) = Int.fdiv (Int.fmod s 86400) 3600 := by
  unfold HourFromTime msPerHour
  rw [Int.fdiv_eq_ediv _ (by decide), Int.fmod_eq_emod _ (by decide),
    Int.fdiv_eq_ediv _ (by decide), Int.fmod_eq_emod _ (by decide)]
  omega

lemma minute_of_seconds (s : Int) :
    MinFromTime (s * 1000) = Int.fdiv (Int.fmod s 3600) 60 := by
  unfold MinFromTime msPerMinute
  rw [Int.fdiv_eq_ediv _ (by decide), Int.fmod_eq_emod _ (by decide),
    Int.fdiv_eq_ediv _ (by decide), Int.fmod_eq_emod _ (by decide)]
  omega

lemma weekDay_of_seconds (s : Int) :
    WeekDay (s * 1000) = Int.fmod (Int.fdiv s 86400 + 4) 7 := by
  unfold WeekDay Day msPerDay
  rw [Int.fdiv_eq_ediv _ (by decide), Int.fmod_eq_emod _ (by decide),
    Int.fdiv_eq_ediv _ (by decide), Int.fmod_eq_emod _ (by decide)]
  omega

lemma timeClip_in_range (s : Int) (h : s.natAbs ≤ 8640000000000) :
    TimeClip (some (s * 1000)) = some (s * 1000) := by
  simp only [TimeClip]
  rw [if_pos]
  omega

/-- Past its guard, on a shifted instant in the range of `Date`, the formatter
returns the specified string. -/
lemma formatCityTime_val (dt off : Int) (hdt : dt ≠ 0)
    (hr : (dt + off).natAbs ≤ 8640000000000) :
    formatCityTime (.val dt) (.val off) = specCityTime (dt + off) := by
  have hg : (!numTruthy (.val dt) || decide ((JSVal.val off : JSVal Int) = .undefined)
      || decide ((JSVal.val off : JSVal Int) = .null)) = false := by
    simp [numTruthy, hdt]
  have hh : Int.fdiv (Int.fmod (dt + off) 86400) 3600 < 60 ∧
      0 ≤ Int.fdiv (Int.fmod (dt + off) 86400) 3600 := by
    rw [Int.fdiv_eq_ediv _ (by decide), Int.fmod_eq_emod _ (by decide)]
    omega
  have hm : Int.fdiv (Int.fmod (dt + off) 3600) 60 < 60 ∧
      0 ≤ Int.fdiv (Int.fmod (dt + off) 3600) 60 := by
    rw [Int.fdiv_eq_ediv _ (by decide), Int.fmod_eq_emod _ (by decide)]
    omega
  have hd : Int.fmod (Int.fdiv (dt + off) 86400 + 4) 7 < 7 ∧
      0 ≤ Int.fmod (Int.fdiv (dt + off) 86400 + 4) 7 := by
    rw [Int.fmod_eq_emod _ (by decide)]
    omega
  unfold formatCityTime
  simp only [hg, Bool.false_eq_true, if_false, toNumber, numAdd, numMul, newDate,
    timeClip_in_range _ hr, Date.getUTCHours, Date.getUTCMinutes, Date.getUTCDay,
    Option.map_some', hour_of_seconds, minute_of_seconds, weekDay_of_seconds,
    pad_eq_twoDigits _ hh.2 hh.1, pad_eq_twoDigits _ hm.2 hm.1, dayName_eq _ hd.2 hd.1]
  rfl

/-- Past its guard the formatter returns a string that is not empty, whatever the `Date`. -/
lemma template_ne_empty (a b c : String) : a ++ " " ++ b ++ ":" ++ c ≠ "" := by
  intro h
  have hl := congrArg String.length h
  simp only [String.length_append] at hl
  have h1 : " ".length = 1 := by decide
  have h0 : "".length = 0 := by decide
  omega

lemma formatCityTime_guard (dt off : JSVal Int) :
    formatCityTime dt off = "" ↔
      (dt = .undefined ∨ dt = .null ∨ dt = .val 0) ∨ (off = .undefined ∨ off = .null) := by
  unfold formatCityTime
  split_ifs with h
  · simp only [true_iff]
    simp only [Bool.or_eq_true, Bool.not_eq_true', decide_eq_true_eq] at h
    rcases h with (h | h) | h
    · left
      cases dt with
      | undefined => simp
      | null => simp
      | val n =>
        right; right
        simpa [numTruthy] using h
    · exact Or.inr (Or.inl h)
    · exact Or.inr (Or.inr h)
  · simp only [Bool.or_eq_true, Bool.not_eq_true', decide_eq_true_eq, not_or] at h
    obtain ⟨⟨h1, h2⟩, h3⟩ := h
    constructor
    · intro he
      exact absurd he (template_ne_empty _ _ _)
    · rintro ((hd | hd | hd) | (ho | ho))
      · simp [hd, numTruthy] at h1
      · simp [hd, numTruthy] at h1
      · simp [hd, numTruthy] at h1
      · exact absurd ho h2
      · exact absurd ho h3

/-- With a shifted instant in the range of `Date`, the label is a short day name. -/
lemma formatForecastDay_val (dt off : Int) (hr : (dt + off).natAbs ≤ 8640000000000) :
    formatForecastDay (.val dt) (.val off)
      = .val (daysShort.getD (Int.fmod (Int.fdiv (dt + off) 86400 + 4) 7).toNat "") := by
  have hd : Int.fmod (Int.fdiv (dt + off) 86400 + 4) 7 < 7 ∧
      0 ≤ Int.fmod (Int.fdiv (dt + off) 86400 + 4) 7 := by
    rw [Int.fmod_eq_emod _ (by decide)]
    omega
  unfold formatForecastDay
  simp only [toNumber, numAdd, numMul, newDate, timeClip_in_range _ hr, Date.getUTCDay,
    Option.map_some', weekDay_of_seconds]
  generalize Int.fmod (Int.fdiv (dt + off) 86400 + 4) 7 = k at hd
  obtain ⟨h1, h0⟩ := hd
  interval_cases k <;> rfl

/-- The first three characters of the specified string are the short day name. -/
lemma firstChars_specCityTime (s : Int) :
    firstChars 3 (specCityTime s)
      = daysShort.getD (Int.fmod (Int.fdiv s 86400 + 4) 7).toNat "" := by
  have hd : Int.fmod (Int.fdiv s 86400 + 4) 7 < 7 ∧ 0 ≤ Int.fmod (Int.fdiv s 86400 + 4) 7 := by
    rw [Int.fmod_eq_emod _ (by decide)]
    omega
  unfold specCityTime
  generalize Int.fmod (Int.fdiv s 86400 + 4) 7 = k at hd
  generalize twoDigits (Int.fdiv (Int.fmod s 86400) 3600) = hh
  generalize twoDigits (Int.fdiv (Int.fmod s 3600) 60) = mm
  obtain ⟨h1, h0⟩ := hd
  interval_cases k <;> rfl

/-- C1, as amended: for every integer timestamp `dt` other than 0 and every
integer offset whose sum `s = dt + offset` is within 8 640 000 000 000 seconds
of the epoch (the range of `Date`), negative sums included,
`formatCityTime(dt, offset)` is exactly "{DayName} {HH}:{MM}" for `s` read as
UTC seconds, with the day, hour and minute formulas of the claim. -/
theorem formatCityTime_spec (dt off : Int) (hdt : dt ≠ 0)
    (hr : (dt + off).natAbs ≤ 8640000000000) :
    formatCityTime (.val dt) (.val off) = specCityTime (dt + off) :=
  formatCityTime_val dt off hdt hr

/-- The two instances named by C1: Wednesday 14:05, and one hour later with an
offset of 3600. -/
theorem formatCityTime_spec_witness :
    ((569100 : Int) ≠ 0 ∧ ((569100 : Int) + 0).natAbs ≤ 8640000000000
        ∧ formatCityTime (.val 569100) (.val 0) = "Wednesday 14:05")
      ∧ (((569100 : Int) + 3600).natAbs ≤ 8640000000000
        ∧ formatCityTime (.val 569100) (.val 3600) = "Wednesday 15:05") :=
  ⟨⟨by decide, by decide, (formatCityTime_spec 569100 0 (by decide) (by decide)).trans (by decide)⟩,
    by decide, (formatCityTime_spec 569100 3600 (by decide) (by decide)).trans (by decide)⟩

/-- C1 fails as stated: one second past the range of `Date` the shifted
instant gives an Invalid Date, and the formatter returns "undefined NaN:NaN"
where the claim has "Saturday 00:00". -/
theorem formatCityTime_out_of_range :
    (8640000000001 : Int) ≠ 0
      ∧ formatCityTime (.val 8640000000001) (.val 0) = "undefined NaN:NaN"
      ∧ specCityTime (8640000000001 + 0) = "Saturday 00:00"
      ∧ formatCityTime (.val 8640000000001) (.val 0) ≠ specCityTime (8640000000001 + 0) := by
  decide

/-- C4, as amended: `formatCityTime(dt, offset)` is the empty string exactly
when `dt` is absent or 0 or the offset is absent (`undefined` or `null`); it
is empty for `dt = 0` whatever the offset and for an absent offset whatever
the `dt`; an offset of exactly 0 with a non-zero integer `dt` gives a string
that is not empty, and that is the "Weekday HH:MM" string of `dt` whenever
`dt` is in the range of `Date`. -/
theorem formatCityTime_empty_iff (dt off : JSVal Int) :
    (formatCityTime dt off = "" ↔
        (dt = .undefined ∨ dt = .null ∨ dt = .val 0) ∨ (off = .undefined ∨ off = .null))
      ∧ formatCityTime (.val 0) off = ""
      ∧ formatCityTime dt .undefined = "" ∧ formatCityTime dt .null = ""
      ∧ ∀ n : Int, n ≠ 0 →
          formatCityTime (.val n) (.val 0) ≠ ""
            ∧ (n.natAbs ≤ 8640000000000 → formatCityTime (.val n) (.val 0) = specCityTime n) := by
  refine ⟨formatCityTime_guard dt off, ?_, ?_, ?_, ?_⟩
  · exact (formatCityTime_guard _ _).2 (Or.inl (Or.inr (Or.inr rfl)))
  · exact (formatCityTime_guard _ _).2 (Or.inr (Or.inl rfl))
  · exact (formatCityTime_guard _ _).2 (Or.inr (Or.inr rfl))
  · intro n hn
    constructor
    · intro he
      rcases (formatCityTime_guard _ _).1 he with (h | h | h) | (h | h)
      · cases h
      · cases h
      · exact hn (JSVal.val.inj h)
      · cases h
      · cases h
    · intro hr
      have h := formatCityTime_val n 0 hn (by simpa using hr)
      simpa using h

/-- An instance of C4: the epoch gives the empty string, and a non-zero
timestamp with offset 0 gives "Wednesday 14:05". -/
theorem formatCityTime_empty_iff_witness :
    formatCityTime (.val 0) (.val 0) = ""
      ∧ formatCityTime (.val 569100) (.val 0) ≠ ""
      ∧ formatCityTime (.val 569100) (.val 0) = specCityTime 569100 :=
  ⟨(formatCityTime_empty_iff (.val 0) (.val 0)).2.1,
    ((formatCityTime_empty_iff (.val 0) (.val 0)).2.2.2.2 569100 (by decide)).1,
    ((formatCityTime_empty_iff (.val 0) (.val 0)).2.2.2.2 569100 (by decide)).2 (by decide)⟩

/-- C4 fails as stated: with offset 0 and a non-zero integer `dt` beyond the
range of `Date`, the result is "undefined NaN:NaN", which starts with no day
name. -/
theorem formatCityTime_offset_zero_invalid_date :
    (-8640000000001 : Int) ≠ 0
      ∧ formatCityTime (.val (-8640000000001)) (.val 0) = "undefined NaN:NaN"
      ∧ (days.any fun d => startsWith (formatCityTime (.val (-8640000000001)) (.val 0)) d)
          = false := by
  decide

/-- C5, as amended: for every integer `dt` and offset whose sum is in the range
of `Date`, `formatForecastDay(dt, offset)` is one of Sun, Mon, Tue, Wed, Thu,
Fri, Sat, and when moreover `dt` is not 0 it is the first three characters of
`formatCityTime(dt, offset)`. -/
theorem formatForecastDay_short_name (dt off : Int)
    (hr : (dt + off).natAbs ≤ 8640000000000) :
    (∃ d ∈ daysShort, formatForecastDay (.val dt) (.val off) = .val d)
      ∧ (dt ≠ 0 → formatForecastDay (.val dt) (.val off)
          = .val (firstChars 3 (formatCityTime (.val dt) (.val off)))) := by
  have hd : Int.fmod (Int.fdiv (dt + off) 86400 + 4) 7 < 7 ∧
      0 ≤ Int.fmod (Int.fdiv (dt + off) 86400 + 4) 7 := by
    rw [Int.fmod_eq_emod _ (by decide)]
    omega
  constructor
  · refine ⟨_, ?_, formatForecastDay_val dt off hr⟩
    generalize Int.fmod (Int.fdiv (dt + off) 86400 + 4) 7 = k at hd
    obtain ⟨h1, h0⟩ := hd
    interval_cases k <;> decide
  · intro hdt
    rw [formatForecastDay_val dt off hr, formatCityTime_val dt off hdt hr,
      firstChars_specCityTime]

/-- An instance of C5: a Wednesday afternoon gives "Wed", the start of
"Wednesday 14:05". -/
theorem formatForecastDay_short_name_witness :
    ((569100 : Int) + 0).natAbs ≤ 8640000000000
      ∧ formatForecastDay (.val 569100) (.val 0) = .val "Wed"
      ∧ firstChars 3 (formatCityTime (.val 569100) (.val 0)) = "Wed" :=
  ⟨by decide,
    ((formatForecastDay_short_name 569100 0 (by decide)).2 (by decide)).trans (by decide),
    by decide⟩

/-- C5 fails as stated: at `dt = 0` the label is "Thu" while `formatCityTime`
returns the empty string, and beyond the range of `Date` the label is
`undefined`, none of the seven names. -/
theorem formatForecastDay_mismatch :
    formatForecastDay (.val 0) (.val 0) = .val "Thu"
      ∧ firstChars 3 (formatCityTime (.val 0) (.val 0)) = ""
      ∧ formatForecastDay (.val 0) (.val 0)
          ≠ .val (firstChars 3 (formatCityTime (.val 0) (.val 0)))
      ∧ formatForecastDay (.val 8640000000000) (.val 1) = .undefined := by
  decide

/-- A code that ends with "d" is not the empty string. -/
lemma endsWith_d_ne_empty (code : String) (h : endsWith code "d" = true) : code ≠ "" := by
  rintro rfl
  exact absurd h (by decide)

/-- The truthiness of `isDay` is the flag of the specification. -/
lemma isDay_eq (iconCode : JSVal String) :
    (strTruthy iconCode && endsWith (orEmpty iconCode) "d") = specIsDay iconCode := by
  cases iconCode with
  | undefined => rfl
  | null => rfl
  | val code =>
    simp only [strTruthy, orEmpty, specIsDay]
    cases h : endsWith code "d"
    · simp
    · simp [endsWith_d_ne_empty code h]

/-- The cascade of `getWeatherEmoji` returns the result of the first matching rule. -/
lemma getWeatherEmoji_eq_spec (iconCode main description : JSVal String) :
    getWeatherEmoji iconCode main description = specWeatherEmoji iconCode description := by
  unfold getWeatherEmoji specWeatherEmoji
  simp only [isDay_eq, emojiRules, EmojiRule.applies, List.any_cons, List.any_nil,
    Bool.or_false, Bool.false_or, List.find?_cons, List.find?_nil]
  generalize specIsDay iconCode = isDay
  generalize orEmpty iconCode = code
  generalize toLowerCase (orEmpty description) = lower
  cases startsWith code "01" <;> cases startsWith code "02" <;> cases startsWith code "03"
    <;> cases startsWith code "04" <;> cases startsWith code "09" <;> cases startsWith code "10"
    <;> cases includes lower "rain" <;> simp
  all_goals
    cases startsWith code "11" <;> cases includes lower "thunder" <;> simp
  all_goals
    cases startsWith code "13" <;> cases includes lower "snow" <;> simp
  all_goals
    cases startsWith code "50" <;> cases includes lower "mist" <;> cases includes lower "fog"
      <;> cases includes lower "haze" <;> simp

/-- C2: for every icon code (absent or empty included), main condition and
description, `getWeatherEmoji` returns the result of the first matching rule of
the ordered list of rules 1 to 8, with isDay the flag "code present and ending
in d" and the description lower-cased; and every code that starts with "01"
yields the glyph of rule 1 whatever the description. -/
theorem getWeatherEmoji_first_match (iconCode main description : JSVal String) :
    getWeatherEmoji iconCode main description = specWeatherEmoji iconCode description
      ∧ ∀ code : String, iconCode = .val code → startsWith code "01" = true →
          getWeatherEmoji iconCode main description
            = if endsWith code "d" then "☀️" else "🌙" := by
  refine ⟨getWeatherEmoji_eq_spec iconCode main description, ?_⟩
  rintro code rfl h
  unfold getWeatherEmoji
  have hd := isDay_eq (.val code)
  simp only [specIsDay] at hd
  simp only [orEmpty] at hd ⊢
  simp only [h, if_true, hd]

/-- The instance named by C2: "01d" with a description that contains "snow"
gives the sun of rule 1, by day. -/
theorem getWeatherEmoji_first_match_witness :
    startsWith "01d" "01" = true
      ∧ getWeatherEmoji (.val "01d") (.val "Snow") (.val "heavy snow") = "☀️" :=
  ⟨by decide,
    ((getWeatherEmoji_first_match (.val "01d") (.val "Snow") (.val "heavy snow")).2 "01d" rfl
      (by decide)).trans (by decide)⟩

/-- C3, as amended: `getWeatherEmoji("", "", "thunderstorm with rain")` returns
the night rain glyph of rule 4, which the word "rain" selects before rule 5 is
reached; with an empty or absent icon code the thunderstorm glyph is selected
from the description alone when it contains "thunder" and not "rain". -/
theorem getWeatherEmoji_thunder_by_description :
    getWeatherEmoji (.val "") (.val "") (.val "thunderstorm with rain") = "🌧️"
      ∧ ∀ (iconCode main description : JSVal String), orEmpty iconCode = "" →
          includes (toLowerCase (orEmpty description)) "rain" = false →
          includes (toLowerCase (orEmpty description)) "thunder" = true →
          getWeatherEmoji iconCode main description = "⛈️" := by
  refine ⟨by decide, ?_⟩
  intro iconCode main description hc hr ht
  have h01 : startsWith "" "01" = false := by decide
  have h02 : startsWith "" "02" = false := by decide
  have h03 : startsWith "" "03" = false := by decide
  have h04 : startsWith "" "04" = false := by decide
  have h09 : startsWith "" "09" = false := by decide
  have h10 : startsWith "" "10" = false := by decide
  unfold getWeatherEmoji
  simp [hc, hr, ht, h01, h02, h03, h04, h09, h10]

/-- An instance of C3 as amended: the description "thunderstorm", with an empty
icon code, gives the thunderstorm glyph. -/
theorem getWeatherEmoji_thunder_by_description_witness :
    orEmpty (.val "") = ""
      ∧ includes (toLowerCase (orEmpty (.val "thunderstorm"))) "rain" = false
      ∧ includes (toLowerCase (orEmpty (.val "thunderstorm"))) "thunder" = true
      ∧ getWeatherEmoji (.val "") (.val "") (.val "thunderstorm") = "⛈️" :=
  ⟨by decide, by decide, by decide,
    getWeatherEmoji_thunder_by_description.2 (.val "") (.val "") (.val "thunderstorm")
      (by decide) (by decide) (by decide)⟩

/-- C3 fails as stated: the description "thunderstorm with rain" contains
"rain", so with an empty icon code rule 4 returns the night rain glyph, not the
thunderstorm glyph. -/
theorem getWeatherEmoji_thunderstorm_with_rain :
    includes (toLowerCase "thunderstorm with rain") "rain" = true
      ∧ getWeatherEmoji (.val "") (.val "") (.val "thunderstorm with rain") = "🌧️"
      ∧ getWeatherEmoji (.val "") (.val "") (.val "thunderstorm with rain") ≠ "⛈️" := by
  decide

/-! ### The data client -/

/-- The result of `arrayMap` has an entry for each element, built from it. -/
lemma arrayMap_some {α β : Type} (f : α → Option β) :
    ∀ (l : List α) (bs : List β), arrayMap f l = some bs →
      bs.length = l.length
        ∧ ∀ (i : Nat) (a : α), l[i]? = some a → ∃ b : β, bs[i]? = some b ∧ f a = some b := by
  intro l
  induction l with
  | nil =>
    intro bs h
    simp only [arrayMap, Option.some.injEq] at h
    subst h
    simp
  | cons a rest ih =>
    intro bs h
    simp only [arrayMap] at h
    cases hfa : f a with
    | none => simp [hfa] at h
    | some b =>
      cases hrest : arrayMap f rest with
      | none => simp [hfa, hrest] at h
      | some bs' =>
        simp only [hfa, hrest, Option.some.injEq] at h
        subst h
        obtain ⟨hlen, hget⟩ := ih bs' hrest
        refine ⟨by simp [hlen], ?_⟩
        intro i x hx
        cases i with
        | zero =>
          simp only [List.getElem?_cons_zero, Option.some.injEq] at hx
          subst hx
          exact ⟨b, by simp, hfa⟩
        | succ i =>
          simp only [List.getElem?_cons_succ] at hx ⊢
          exact hget i x hx

/-- The callback of `arrayMap` succeeds on every element where it does not throw. -/
lemma arrayMap_isSome {α β : Type} (f : α → Option β) :
    ∀ l : List α, (∀ a ∈ l, ∃ b, f a = some b) → ∃ bs, arrayMap f l = some bs := by
  intro l
  induction l with
  | nil => intro _; exact ⟨[], rfl⟩
  | cons a rest ih =>
    intro h
    obtain ⟨b, hb⟩ := h a (by simp)
    obtain ⟨bs, hbs⟩ := ih (fun x hx => h x (by simp [hx]))
    exact ⟨b :: bs, by simp [arrayMap, hb, hbs]⟩

/-- On a well-formed period the callback returns an entry with the period's
time and the timezone of the response's city. -/
lemma forecastEntryOf_wellFormed (d : ForecastData) (c : CityData) (p : Period)
    (hc : d.city = .val c) (hp : p.wellFormed = true) :
    ∃ e, forecastEntryOf d p = some e ∧ e.dt = p.dt ∧ e.timezone = c.timezone := by
  obtain ⟨dt, main, weather⟩ := p
  obtain ⟨list, city⟩ := d
  simp only at hc
  subst hc
  cases main with
  | undefined => simp [Period.wellFormed, JSVal.absent] at hp
  | null => simp [Period.wellFormed, JSVal.absent] at hp
  | val m =>
    cases weather with
    | undefined => simp [Period.wellFormed] at hp
    | null => simp [Period.wellFormed] at hp
    | val ws =>
      cases ws with
      | nil => simp [Period.wellFormed] at hp
      | cons w0 rest =>
        exact ⟨_, rfl, rfl, rfl⟩

/-- An entry that the callback returns carries the timezone of the response's city. -/
lemma forecastEntryOf_timezone (d : ForecastData) (c : CityData) (p : Period)
    (e : ForecastEntry) (hc : d.city = .val c) (he : forecastEntryOf d p = some e) :
    e.timezone = c.timezone ∧ e.dt = p.dt := by
  obtain ⟨dt, main, weather⟩ := p
  cases main with
  | undefined => simp [forecastEntryOf, JSVal.obj] at he
  | null => simp [forecastEntryOf, JSVal.obj] at he
  | val m =>
    cases weather with
    | undefined => simp [forecastEntryOf, JSVal.obj] at he
    | null => simp [forecastEntryOf, JSVal.obj] at he
    | val ws =>
      cases ws with
      | nil => simp [forecastEntryOf, JSVal.obj, first] at he
      | cons w0 rest =>
        simp only [forecastEntryOf, JSVal.obj, first, hc, Option.bind_eq_bind, Option.some_bind,
          Option.pure_def, Option.some.injEq] at he
        subst he
        exact ⟨rfl, rfl⟩

/-- The mapping of `searchCity` throws exactly on a payload that lacks one of
the objects it reads from. -/
lemma currentWeatherOf_eq_none_iff (data : JSVal CurrentData) :
    currentWeatherOf data = none ↔ lacksObject data = true := by
  cases data with
  | undefined => exact ⟨fun _ => rfl, fun _ => rfl⟩
  | null => exact ⟨fun _ => rfl, fun _ => rfl⟩
  | val d =>
    obtain ⟨name, main, weather, wind, dt, timezone⟩ := d
    cases main <;> cases wind <;> cases weather with
    | undefined => exact ⟨fun _ => rfl, fun _ => rfl⟩
    | null => exact ⟨fun _ => rfl, fun _ => rfl⟩
    | val ws =>
      cases ws with
      | nil => exact ⟨fun _ => rfl, fun _ => rfl⟩
      | cons w0 rest =>
        first
          | exact ⟨fun _ => rfl, fun _ => rfl⟩
          | exact ⟨fun h => Option.noConfusion h, fun h => Bool.noConfusion h⟩

/-- The rounding of `Math.round` is within one half of its argument and no
integer is nearer. -/
lemma round_nearest (x : ℚ) :
    |((⌊x + 1 / 2⌋ : Int) : ℚ) - x| ≤ 1 / 2 ∧ IsNearestInt x ⌊x + 1 / 2⌋ := by
  have h1 : ((⌊x + 1 / 2⌋ : Int) : ℚ) ≤ x + 1 / 2 := Int.floor_le _
  have h2 : x + 1 / 2 < ((⌊x + 1 / 2⌋ : Int) : ℚ) + 1 := Int.lt_floor_add_one _
  have hhalf : |((⌊x + 1 / 2⌋ : Int) : ℚ) - x| ≤ 1 / 2 := by
    rw [abs_le]
    constructor <;> linarith
  refine ⟨hhalf, ?_⟩
  intro k
  rcases lt_trichotomy k ⌊x + 1 / 2⌋ with hk | hk | hk
  · have hk' : (k : ℚ) + 1 ≤ ((⌊x + 1 / 2⌋ : Int) : ℚ) := by exact_mod_cast hk
    have : 1 / 2 ≤ |(k : ℚ) - x| := by
      rw [le_abs]
      right
      linarith
    linarith
  · rw [hk]
  · have hk' : ((⌊x + 1 / 2⌋ : Int) : ℚ) + 1 ≤ (k : ℚ) := by exact_mod_cast hk
    have : 1 / 2 ≤ |(k : ℚ) - x| := by
      rw [le_abs]
      left
      linarith
    linarith

/-- C6: for every successful forecast response whose period list has `n`
well-formed entries, the sequence stored by `getForecast` has exactly
`min n 5` entries, entry `i` is built from period `i` of the response, and
every stored entry carries the timezone of the response's top-level city. -/
theorem getForecast_stores_first_five (st : AppState) (status : Nat) (d : ForecastData)
    (periods : List Period) (c : CityData) (hs : 200 ≤ status ∧ status < 300)
    (hl : d.list = .val periods) (hc : d.city = .val c)
    (hw : ∀ p ∈ periods, p.wellFormed = true) :
    ∃ entries : List ForecastEntry,
      (forecastSettled st (.response status (.val d))).1.forecast = entries
        ∧ entries.length = min periods.length 5
        ∧ (∀ i : Nat, i < min periods.length 5 →
            ∃ p e, periods[i]? = some p ∧ entries[i]? = some e
              ∧ forecastEntryOf d p = some e ∧ e.dt = p.dt)
        ∧ ∀ e ∈ entries, e.timezone = c.timezone := by
  have hall : ∀ p ∈ periods.take 5, ∃ e, forecastEntryOf d p = some e := by
    intro p hp
    obtain ⟨e, he, _⟩ := forecastEntryOf_wellFormed d c p hc (hw p (List.mem_of_mem_take hp))
    exact ⟨e, he⟩
  obtain ⟨entries, hentries⟩ := arrayMap_isSome (forecastEntryOf d) (periods.take 5) hall
  obtain ⟨hlen, hget⟩ := arrayMap_some (forecastEntryOf d) (periods.take 5) entries hentries
  have hof : forecastOf (.val d) = some entries := by
    simp [forecastOf, JSVal.obj, hl, hentries]
  have hlen5 : entries.length = min periods.length 5 := by
    rw [hlen, List.length_take, Nat.min_comm]
  refine ⟨entries, ?_, hlen5, ?_, ?_⟩
  · simp [forecastSettled, Outcome.fulfilled, hs.1, hs.2, hof]
  · intro i hi
    have hi5 : i < 5 := lt_of_lt_of_le hi (Nat.min_le_right _ _)
    have hin : i < periods.length := lt_of_lt_of_le hi (Nat.min_le_left _ _)
    have hp : (periods.take 5)[i]? = some periods[i] := by
      rw [List.getElem?_take, if_pos hi5, List.getElem?_eq_getElem hin]
    obtain ⟨e, he, hfe⟩ := hget i periods[i] hp
    exact ⟨periods[i], e, List.getElem?_eq_getElem hin, he, hfe,
      (forecastEntryOf_timezone d c _ e hc hfe).2⟩
  · intro e he
    obtain ⟨i, hi, rfl⟩ := List.getElem_of_mem he
    have hi' : i < (periods.take 5).length := by rw [← hlen]; exact hi
    obtain ⟨e', he', hfe⟩ := hget i (periods.take 5)[i] (List.getElem?_eq_getElem hi')
    rw [List.getElem?_eq_getElem hi, Option.some.injEq] at he'
    subst he'
    exact (forecastEntryOf_timezone d c _ _ hc hfe).1

/-- The instance named by C6: of a response with 8 periods exactly the first 5
are stored, in the provider's order, each with the city's timezone. -/
theorem getForecast_stores_first_five_witness :
    (∀ p ∈ [periodAt 10800, periodAt 21600, periodAt 32400, periodAt 43200, periodAt 54000,
        periodAt 64800, periodAt 75600, periodAt 86400], p.wellFormed = true)
      ∧ (forecastSettled initialState (.response 200 (.val eightPeriods))).1.forecast.length = 5
      ∧ (forecastSettled initialState (.response 200 (.val eightPeriods))).1.forecast.map
          (fun e => (e.dt, e.timezone))
        = [(.val 10800, .val 7200), (.val 21600, .val 7200), (.val 32400, .val 7200),
            (.val 43200, .val 7200), (.val 54000, .val 7200)] := by
  have hw : ∀ p ∈ [periodAt 10800, periodAt 21600, periodAt 32400, periodAt 43200,
      periodAt 54000, periodAt 64800, periodAt 75600, periodAt 86400],
      p.wellFormed = true := by
    intro p hp
    simp only [List.mem_cons, List.mem_singleton, List.not_mem_nil, or_false] at hp
    rcases hp with h | h | h | h | h | h | h | h <;> subst h <;> rfl
  obtain ⟨entries, hst, hlen, _, _⟩ :=
    getForecast_stores_first_five initialState 200 eightPeriods _ { timezone := .val 7200 }
      (by decide) rfl rfl hw
  refine ⟨hw, ?_, rfl⟩
  rw [hst, hlen]
  rfl

/-- C7, as amended: for every state and every non-empty city name, when the
current-conditions request fails (network error, non-success status, or a
payload that lacks an object the mapping reads from: `main`, `wind` or
`weather[0]`), the resulting state has `weather` and `forecast` equal to their
values before the attempt, `isLoading` is false, and no forecast request is
issued. -/
theorem searchCity_failure_keeps_state (st : AppState) (cityName : String)
    (rc : Outcome CurrentData) (rf : Outcome ForecastData) (hc : cityName ≠ "")
    (hf : rc = .networkError ∨ ∃ status data, rc = .response status data
      ∧ (¬ (200 ≤ status ∧ status < 300) ∨ lacksObject data = true)) :
    (searchChain st cityName rc rf).1.weather = st.weather
      ∧ (searchChain st cityName rc rf).1.forecast = st.forecast
      ∧ (searchChain st cityName rc rf).1.isLoading = false
      ∧ ∀ c, Effect.get (.forecast c) ∉ (searchChain st cityName rc rf).2 := by
  have hnone : rc.fulfilled.bind currentWeatherOf = none := by
    rcases hf with rfl | ⟨status, data, rfl, hs | hl⟩
    · rfl
    · simp [Outcome.fulfilled, hs]
    · by_cases hs : 200 ≤ status ∧ status < 300
      · simp [Outcome.fulfilled, hs, (currentWeatherOf_eq_none_iff data).2 hl]
      · simp [Outcome.fulfilled, hs]
  simp [searchChain, searchCity, hc, currentSettled, hnone]

/-- An instance of C7 as amended: a search for "Paris" that ends in a network
error leaves the state of the first render as it was. -/
theorem searchCity_failure_keeps_state_witness :
    "Paris" ≠ ""
      ∧ (searchChain initialState "Paris" .networkError .networkError).1.weather = none
      ∧ (searchChain initialState "Paris" .networkError .networkError).1.forecast = []
      ∧ (searchChain initialState "Paris" .networkError .networkError).1.isLoading = false
      ∧ (searchChain initialState "Paris" .networkError .networkError).2
          = [.get (.current "Paris"), .consoleError,
              .alert "Could not find that city. Please try again 🥺"] :=
  have h := searchCity_failure_keeps_state initialState "Paris" .networkError .networkError
    (by decide) (Or.inl rfl)
  ⟨by decide, h.1, h.2.1, h.2.2.1, rfl⟩

/-- C7 fails as stated: a payload that lacks `name`, a field the mapping reads,
is not a failure: its record is stored and the forecast request is sent. -/
theorem searchCity_missing_name_is_stored :
    testvilleUnnamed.name = .undefined
      ∧ (searchChain initialState "Testville" (.response 200 (.val testvilleUnnamed))
          .networkError).1.weather ≠ initialState.weather
      ∧ Effect.get (.forecast "Testville") ∈
          (searchChain initialState "Testville" (.response 200 (.val testvilleUnnamed))
            .networkError).2 := by
  refine ⟨rfl, ?_, ?_⟩
  · intro h
    exact Option.noConfusion h
  · decide

/-- C8: for every state, when the current-conditions request succeeds and the
forecast request that follows it fails, the resulting state has `isLoading`
false, the forecast sequence of before the search, the newly fetched record as
`weather`, and no alert is raised. -/
theorem forecast_failure_keeps_forecast (st : AppState) (cityName : String)
    (rc : Outcome CurrentData) (rf : Outcome ForecastData) (w : CurrentWeather)
    (hc : cityName ≠ "")
    (hcur : ∃ status data, rc = .response status data ∧ (200 ≤ status ∧ status < 300)
      ∧ currentWeatherOf data = some w)
    (hf : rf = .networkError ∨ ∃ status data, rf = .response status data
      ∧ (¬ (200 ≤ status ∧ status < 300) ∨ forecastOf data = none)) :
    (searchChain st cityName rc rf).1.isLoading = false
      ∧ (searchChain st cityName rc rf).1.forecast = st.forecast
      ∧ (searchChain st cityName rc rf).1.weather = some w
      ∧ ∀ message, Effect.alert message ∉ (searchChain st cityName rc rf).2 := by
  obtain ⟨status, data, rfl, hs, hw⟩ := hcur
  have hsome : (Outcome.response status data).fulfilled.bind currentWeatherOf = some w := by
    simp [Outcome.fulfilled, hs, hw]
  have hnone : rf.fulfilled.bind forecastOf = none := by
    rcases hf with rfl | ⟨status', data', rfl, hs' | hl⟩
    · rfl
    · simp [Outcome.fulfilled, hs']
    · by_cases hs' : 200 ≤ status' ∧ status' < 300
      · simp [Outcome.fulfilled, hs', hl]
      · simp [Outcome.fulfilled, hs']
  simp [searchChain, searchCity, hc, currentSettled, hsome, getForecast, forecastSettled, hnone]

/-- An instance of C8: "Testville" is found and its forecast request ends in a
network error. -/
theorem forecast_failure_keeps_forecast_witness :
    "Testville" ≠ ""
      ∧ (searchChain initialState "Testville" (.response 200 (.val testville))
          .networkError).1.isLoading = false
      ∧ (searchChain initialState "Testville" (.response 200 (.val testville))
          .networkError).1.forecast = []
      ∧ (searchChain initialState "Testville" (.response 200 (.val testville))
          .networkError).1.weather = currentWeatherOf (.val testville)
      ∧ (searchChain initialState "Testville" (.response 200 (.val testville))
          .networkError).2
          = [.get (.current "Testville"), .get (.forecast "Testville"), .consoleError] :=
  have h := forecast_failure_keeps_forecast initialState "Testville"
    (.response 200 (.val testville)) .networkError _ (by decide)
    ⟨200, .val testville, rfl, by decide, rfl⟩ (Or.inl rfl)
  ⟨by decide, h.1, h.2.1, h.2.2.1, rfl⟩

/-- C9: for every successful current-conditions response, the record stored by
`searchCity` has `temperature` equal to `main.temp` rounded to the nearest
integer and `windSpeed` equal to `wind.speed` rounded to the nearest integer,
each within 1/2 of the provider's value, while `city`, `description`,
`humidity`, `dt`, `timezone`, `iconCode` and `main` are copied verbatim. -/
theorem searchCity_stores_record (st : AppState) (cityName : String) (status : Nat)
    (d : CurrentData) (m : MainData) (w0 : WeatherItem) (ws : List WeatherItem)
    (wind : WindData) (t v : ℚ) (hs : 200 ≤ status ∧ status < 300)
    (hm : d.main = .val m) (hw : d.weather = .val (w0 :: ws)) (hwind : d.wind = .val wind)
    (ht : m.temp = .val t) (hv : wind.speed = .val v) :
    ∃ w : CurrentWeather,
      (currentSettled st cityName (.response status (.val d))).1.weather = some w
        ∧ (∃ n : Int, w.temperature = some n ∧ IsNearestInt t n ∧ |(n : ℚ) - t| ≤ 1 / 2)
        ∧ (∃ n : Int, w.windSpeed = some n ∧ IsNearestInt v n ∧ |(n : ℚ) - v| ≤ 1 / 2)
        ∧ w.city = d.name ∧ w.description = w0.description ∧ w.humidity = m.humidity
        ∧ w.dt = d.dt ∧ w.timezone = d.timezone ∧ w.iconCode = w0.icon
        ∧ w.main = w0.main := by
  obtain ⟨name, main, weather, dwind, dt, timezone⟩ := d
  simp only at hm hw hwind
  subst hm hw hwind
  obtain ⟨temp, humidity⟩ := m
  obtain ⟨speed⟩ := wind
  simp only at ht hv
  subst ht hv
  have hsome : (Outcome.response status (JSVal.val
      ({ name := name, main := .val { temp := .val t, humidity := humidity },
         weather := .val (w0 :: ws), wind := .val { speed := .val v }, dt := dt,
         timezone := timezone } : CurrentData))).fulfilled.bind currentWeatherOf
      = some { city := name, temperature := some ⌊t + 1 / 2⌋, description := w0.description,
               humidity := humidity, windSpeed := some ⌊v + 1 / 2⌋, dt := dt,
               timezone := timezone, iconCode := w0.icon, main := w0.main } := by
    simp only [Outcome.fulfilled, hs, and_self, if_true, Option.some_bind]
    rfl
  refine ⟨{ city := name, temperature := some ⌊t + 1 / 2⌋, description := w0.description,
            humidity := humidity, windSpeed := some ⌊v + 1 / 2⌋, dt := dt, timezone := timezone,
            iconCode := w0.icon, main := w0.main },
    by simp only [currentSettled, hsome, getForecast], ?_, ?_, rfl, rfl, rfl, rfl, rfl, rfl, rfl⟩
  · exact ⟨_, rfl, (round_nearest t).2, (round_nearest t).1⟩
  · exact ⟨_, rfl, (round_nearest v).2, (round_nearest v).1⟩

/-- The instance named by C9: 21.4 degrees, humidity 55, wind 3.7, icon "10d"
and "light rain" are stored as 21, 55 and 4, and the stored record's glyph is
the day rain glyph. -/
theorem searchCity_stores_record_witness :
    ∃ w : CurrentWeather,
      (currentSettled initialState "Testville" (.response 200 (.val testville))).1.weather = some w
        ∧ w.temperature = some 21 ∧ w.windSpeed = some 4 ∧ w.humidity = .val 55
        ∧ w.city = .val "Testville"
        ∧ getWeatherEmoji w.iconCode w.main w.description = "🌦️" := by
  obtain ⟨w, hw, ⟨n, hn, _, hn2⟩, ⟨k, hk, _, hk2⟩, hcity, hdesc, hhum, _, _, hicon, hmain⟩ :=
    searchCity_stores_record initialState "Testville" 200 testville
      { temp := .val 21.4, humidity := .val 55 }
      { description := .val "light rain", icon := .val "10d", main := .val "Rain" } []
      { speed := .val 3.7 } 21.4 3.7 (by decide) rfl rfl rfl rfl rfl
  refine ⟨w, hw, ?_, ?_, hhum, hcity, ?_⟩
  · rw [hn]
    have h1 := (abs_le.1 hn2).1
    have h2 := (abs_le.1 hn2).2
    have h3 : (20 : ℚ) < n := by linarith
    have h4 : (n : ℚ) < 22 := by linarith
    have h5 : (20 : Int) < n := by exact_mod_cast h3
    have h6 : n < (22 : Int) := by exact_mod_cast h4
    congr 1
    omega
  · rw [hk]
    have h1 := (abs_le.1 hk2).1
    have h2 := (abs_le.1 hk2).2
    have h3 : (3 : ℚ) < k := by linarith
    have h4 : (k : ℚ) < 5 := by linarith
    have h5 : (3 : Int) < k := by exact_mod_cast h3
    have h6 : k < (5 : Int) := by exact_mod_cast h4
    congr 1
    omega
  · rw [hicon, hmain, hdesc]
    decide

/-! ### Runs of the application -/

/-- A search with a non-empty city name sets `isLoading`. -/
lemma searchCity_isLoading (st : AppState) (cityName : String) (hc : cityName ≠ "") :
    (searchCity st cityName).1.isLoading = true := by
  simp [searchCity, hc]

/-- A submission leaves `isLoading` as it was or sets it. -/
lemma handleSubmit_isLoading (st : AppState) :
    (handleSubmit st).1.isLoading = st.isLoading ∨ (handleSubmit st).1.isLoading = true := by
  unfold handleSubmit
  split_ifs with h
  · exact Or.inl rfl
  · exact Or.inr (searchCity_isLoading st _ h)

/-- The settling of the current-conditions request clears `isLoading` when the
request fails and leaves it as it was otherwise. -/
lemma currentSettled_isLoading (st : AppState) (cityName : String) (r : Outcome CurrentData) :
    (currentFails r = true ∧ (currentSettled st cityName r).1.isLoading = false)
      ∨ (currentFails r = false ∧ (currentSettled st cityName r).1.isLoading = st.isLoading) := by
  unfold currentFails currentSettled
  cases r.fulfilled.bind currentWeatherOf with
  | none => exact Or.inl ⟨rfl, rfl⟩
  | some w => exact Or.inr ⟨rfl, rfl⟩

/-- The settling of a forecast request clears `isLoading`. -/
lemma forecastSettled_isLoading (st : AppState) (r : Outcome ForecastData) :
    (forecastSettled st r).1.isLoading = false := by
  unfold forecastSettled
  cases r.fulfilled.bind forecastOf <;> rfl

/-- C10, as amended: in every run, `isLoading` goes from true to false only
when a forecast request settles (the final step of `getForecast`) or when a
current-conditions request fails (the `catch` handler of `searchCity`); every
settling of a forecast request ends with `isLoading` false, and the settling
of a current-conditions request that succeeds leaves `isLoading` as it was. -/
theorem isLoading_cleared_only_on_settle (w w' : World) (ev : Event)
    (hs : step w ev = some w') :
    (w.app.isLoading = true → w'.app.isLoading = false →
        (∃ c r, ev = .forecastDone c r)
          ∨ ∃ c r, ev = .currentDone c r ∧ currentFails r = true)
      ∧ (ev.isForecastDone = true → w'.app.isLoading = false)
      ∧ ∀ c r, ev = .currentDone c r → currentFails r = false →
          w'.app.isLoading = w.app.isLoading := by
  cases ev with
  | mount =>
    refine ⟨?_, fun h => Bool.noConfusion h, fun c r h => Event.noConfusion h⟩
    intro _ h2
    simp only [step] at hs
    split_ifs at hs
    simp only [Option.some.injEq] at hs
    subst hs
    have := searchCity_isLoading w.app "Philadelphia" (by decide)
    simp only [World.after] at h2
    rw [this] at h2
    exact Bool.noConfusion h2
  | change text =>
    refine ⟨?_, fun h => Bool.noConfusion h, fun c r h => Event.noConfusion h⟩
    intro h1 h2
    simp only [step] at hs
    split_ifs at hs
    simp only [Option.some.injEq] at hs
    subst hs
    simp only at h2
    rw [h1] at h2
    exact Bool.noConfusion h2
  | submit =>
    refine ⟨?_, fun h => Bool.noConfusion h, fun c r h => Event.noConfusion h⟩
    intro h1 h2
    simp only [step] at hs
    split_ifs at hs
    simp only [Option.some.injEq] at hs
    subst hs
    simp only [World.after] at h2
    rcases handleSubmit_isLoading w.app with h | h
    · rw [h, h1] at h2
      exact Bool.noConfusion h2
    · rw [h] at h2
      exact Bool.noConfusion h2
  | tick =>
    refine ⟨?_, fun h => Bool.noConfusion h, fun c r h => Event.noConfusion h⟩
    intro h1 h2
    simp only [step] at hs
    split_ifs at hs
    simp only [Option.some.injEq] at hs
    subst hs
    simp only at h2
    rw [h1] at h2
    exact Bool.noConfusion h2
  | currentDone cityName r =>
    simp only [step] at hs
    split_ifs at hs
    simp only [Option.some.injEq] at hs
    subst hs
    simp only [World.after]
    refine ⟨?_, fun h => Bool.noConfusion h, ?_⟩
    · intro h1 h2
      rcases currentSettled_isLoading w.app cityName r with ⟨hf, _⟩ | ⟨_, h⟩
      · exact Or.inr ⟨cityName, r, rfl, hf⟩
      · rw [h, h1] at h2
        exact Bool.noConfusion h2
    · intro c r' he hf
      cases he
      rcases currentSettled_isLoading w.app cityName r with ⟨hf', _⟩ | ⟨_, h⟩
      · rw [hf] at hf'
        exact Bool.noConfusion hf'
      · exact h
  | forecastDone cityName r =>
    simp only [step] at hs
    split_ifs at hs
    simp only [Option.some.injEq] at hs
    subst hs
    simp only [World.after]
    exact ⟨fun _ _ => Or.inl ⟨cityName, r, rfl⟩, fun _ => forecastSettled_isLoading _ _,
      fun c r' h => Event.noConfusion h⟩

/-- An instance of C10 as amended: the step that clears `isLoading` after the
first render is the failure of the current-conditions request. -/
theorem isLoading_cleared_only_on_settle_witness :
    step worldLoading (.currentDone "Philadelphia" .networkError) = some worldFailed
      ∧ worldLoading.app.isLoading = true ∧ worldFailed.app.isLoading = false
      ∧ ((∃ c r, Event.currentDone "Philadelphia" .networkError = .forecastDone c r)
        ∨ ∃ c r, Event.currentDone "Philadelphia" .networkError = .currentDone c r
            ∧ currentFails r = true) :=
  ⟨rfl, rfl, rfl,
    (isLoading_cleared_only_on_settle worldLoading worldFailed
      (.currentDone "Philadelphia" .networkError) rfl).1 rfl rfl⟩

/-- C10 fails as stated: in the run where the request of the first render
fails, `isLoading` goes from true to false at the settling of the
current-conditions request, and no forecast request was ever sent. -/
theorem isLoading_cleared_by_current_failure :
    (run World.start [.mount]).map (fun w => w.app.isLoading) = some true
      ∧ (run World.start [.mount, .currentDone "Philadelphia" .networkError]).map
          (fun w => w.app.isLoading) = some false
      ∧ Event.isForecastDone (.currentDone "Philadelphia" .networkError) = false
      ∧ (run World.start [.mount, .currentDone "Philadelphia" .networkError]).map
          (fun w => requestsOf w.log) = some [.current "Philadelphia"] := by
  decide

end WeatherApp
